import Mathlib

/-!
# k8s-objectmatcher: the patch engine (`patch/patch.go`)

A shallow embedding of `PatchMaker.Calculate`, `PatchResult` and
`PatchResult.IsUnmodified`, with the external collaborators (`json.Marshal`,
the annotator, the merge-metadata lookup and the two three-way merge
algorithms) taken as parameters.
-/

namespace ObjectMatcher

/-! ## Data model -/

/-- A byte, as held in a Go `[]byte`. -/
abbrev Byte := Fin 256

/-- A Go `[]byte` value: either the nil slice or a (possibly empty) slice. -/
inductive ByteSlice where
  | nil
  | slice (bytes : List Byte)
deriving DecidableEq, Repr

/-- The Go conversion `string(b)` of a byte slice; the nil slice and the empty
slice both convert to the empty string. -/
def ByteSlice.toGoString : ByteSlice → List Byte
  | .nil => []
  | .slice bytes => bytes

/-- The Go string literal `"{}"`: the bytes 0x7b 0x7d. -/
def emptyObjectLiteral : List Byte := [0x7b, 0x7d]

/-- Go `type PatchResult struct { Patch, Current, Modified, Original []byte }`. -/
structure PatchResult where
  Patch : ByteSlice
  Current : ByteSlice
  Modified : ByteSlice
  Original : ByteSlice
deriving DecidableEq, Repr

/-- Go `func (p *PatchResult) IsUnmodified() bool { return string(p.Patch) == "{}" }`. -/
def PatchResult.IsUnmodified (p : PatchResult) : Bool :=
  decide (p.Patch.toGoString = emptyObjectLiteral)

/-- A `runtime.Object` as the type switch of `Calculate` sees it: either a
`*unstructured.Unstructured` or a value of any other dynamic type. -/
inductive RuntimeObject (Typed Unstr : Type) where
  | unstructured (u : Unstr)
  | typed (o : Typed)
deriving DecidableEq, Repr

/-- An error built by `emperror.Wrap` / `emperror.WrapWith`: the underlying
error, the message, and the key/value pairs which that call attaches. Whatever
context the underlying error carries itself stays inside `cause`. -/
structure WrappedError (Err Obj : Type) where
  cause : Err
  message : String
  keyvals : List (String × Obj)
deriving DecidableEq, Repr

/-- Go `emperror.Wrap(err, message)`: the call attaches no key/value pair of its own. -/
def Wrap {Err Obj : Type} (err : Err) (message : String) : WrappedError Err Obj :=
  ⟨err, message, []⟩

/-- Go `emperror.WrapWith(err, message, key, value)`. -/
def WrapWith {Err Obj : Type} (err : Err) (message : String) (key : String) (value : Obj) :
    WrappedError Err Obj :=
  ⟨err, message, [(key, value)]⟩

/-- Go `type PatchMaker struct { annotator *Annotator }`. -/
structure PatchMaker (Ann : Type) where
  annotator : Ann
deriving DecidableEq, Repr

/-- The functions and the package-level variable `Calculate` refers to and that
live outside `patch.go`. A Go result pair `(value, err)` is an `Except`: the
code reads the value only after `err != nil` has been excluded. -/
structure Collaborators (Typed Unstr Ann Meta Err : Type) where
  /-- Go `json.Marshal`. -/
  Marshal : RuntimeObject Typed Unstr → Except Err ByteSlice
  /-- Go `DeleteNullInJson`, without its second result, which `Calculate` discards. -/
  DeleteNullInJson : ByteSlice → Except Err ByteSlice
  /-- The package-level variable `DefaultAnnotator`. -/
  DefaultAnnotator : Ann
  /-- The method `(*Annotator).GetOriginalConfiguration`. -/
  GetOriginalConfiguration : Ann → RuntimeObject Typed Unstr → Except Err ByteSlice
  /-- Go `strategicpatch.NewPatchMetaFromStruct`. -/
  NewPatchMetaFromStruct : RuntimeObject Typed Unstr → Except Err Meta
  /-- Go `strategicpatch.CreateThreeWayMergePatch(original, modified, current, meta, overwrite)`. -/
  CreateThreeWayMergePatch :
    ByteSlice → ByteSlice → ByteSlice → Meta → Bool → Except Err ByteSlice
  /-- Go `jsonmergepatch.CreateThreeWayJSONMergePatch(original, modified, current)`. -/
  CreateThreeWayJSONMergePatch : ByteSlice → ByteSlice → ByteSlice → Except Err ByteSlice

/-- The Go result pair `(*PatchResult, error)`; `none` is Go `nil`. -/
abbrev CalculateResult (Typed Unstr Err : Type) :=
  Option PatchResult × Option (WrappedError Err (RuntimeObject Typed Unstr))

/-- Go `func (p *PatchMaker) Calculate(currentObject, modifiedObject runtime.Object)
(*PatchResult, error)`. -/
def Calculate {Typed Unstr Ann Meta Err : Type} (env : Collaborators Typed Unstr Ann Meta Err)
    (_p : PatchMaker Ann) (currentObject modifiedObject : RuntimeObject Typed Unstr) :
    CalculateResult Typed Unstr Err :=
  match env.Marshal currentObject with
  | .error err => (none, some (Wrap err "Failed to convert current object to byte sequence"))
  | .ok current =>
  match env.Marshal modifiedObject with
  | .error err => (none, some (Wrap err "Failed to convert current object to byte sequence"))
  | .ok rawModified =>
  match env.DeleteNullInJson rawModified with
  | .error err => (none, some (Wrap err "Failed to delete null from modified object"))
  | .ok modified =>
  match env.GetOriginalConfiguration env.DefaultAnnotator currentObject with
  | .error err => (none, some (Wrap err "Failed to get original configuration"))
  | .ok original =>
  match currentObject with
  | .typed _ =>
    match env.NewPatchMetaFromStruct modifiedObject with
    | .error err =>
      (none, some (WrapWith err "Failed to lookup patch meta" "current object" currentObject))
    | .ok lookupPatchMeta =>
    match env.CreateThreeWayMergePatch original modified current lookupPatchMeta true with
    | .error err => (none, some (Wrap err "Failed to generate strategic merge patch"))
    | .ok patch => (some ⟨patch, current, modified, original⟩, none)
  | .unstructured _ =>
    match env.CreateThreeWayJSONMergePatch original modified current with
    | .error err => (none, some (Wrap err "Failed to generate merge patch"))
    | .ok patch => (some ⟨patch, current, modified, original⟩, none)

/-! ## The Null-Stripper -/

/-- A JSON document. Object fields are kept in document order. -/
inductive Json where
  | null
  | bool (b : Bool)
  | num (n : Int)
  | str (s : String)
  | arr (elems : List Json)
  | obj (fields : List (String × Json))

mutual
/-- Removes, everywhere in the document, each object field whose value is the
null literal; array elements are kept, null ones included. -/
def stripNulls : Json → Json
  | .obj fields => .obj (stripFields fields)
  | .arr elems => .arr (stripElems elems)
  | j => j
/-- The fields of one object without the null-valued ones, each remaining value stripped. -/
def stripFields : List (String × Json) → List (String × Json)
  | [] => []
  | (_, .null) :: rest => stripFields rest
  | (k, v) :: rest => (k, stripNulls v) :: stripFields rest
/-- The elements of one array, each stripped, none removed. -/
def stripElems : List Json → List Json
  | [] => []
  | x :: rest => stripNulls x :: stripElems rest
end

/-- The JSON reader and writer the Null-Stripper works with (`encoding/json`). -/
structure JsonCodec (Err : Type) where
  decode : ByteSlice → Except Err Json
  encode : Json → ByteSlice

/-- Modelled from the spec: the Null-Stripper `DeleteNullInJson` (section 4.1),
whose body is not in `patch.go`. It fails if the bytes are not valid JSON, and
otherwise returns the document with every null-valued object field removed. -/
def DeleteNullInJson {Err : Type} (codec : JsonCodec Err) (jsonBytes : ByteSlice) :
    Except Err ByteSlice :=
  match codec.decode jsonBytes with
  | .error err => .error err
  | .ok doc => .ok (codec.encode (stripNulls doc))

/-- The document `after` is the document `before` with one extra field
`f : null` put into one of its objects (at any position and any depth), where
that object has no field `f` yet. -/
inductive AddsNullField : Json → Json → Prop where
  | here (f : String) (front back : List (String × Json)) :
      f ∉ (front ++ back).map Prod.fst →
      AddsNullField (.obj (front ++ back)) (.obj (front ++ (f, .null) :: back))
  | inField (k : String) (front back : List (String × Json)) {v w : Json} :
      AddsNullField v w →
      AddsNullField (.obj (front ++ (k, v) :: back)) (.obj (front ++ (k, w) :: back))
  | inElem (front back : List Json) {v w : Json} :
      AddsNullField v w →
      AddsNullField (.arr (front ++ v :: back)) (.arr (front ++ w :: back))

/-! ## The steps of `Calculate` -/

/-- One of the steps of `Calculate` fails: serializing the current object,
serializing the modified object, null stripping of the modified bytes, reading
the original configuration, and then for a typed current object the
merge-metadata lookup or the schema-aware merge, for an untyped one the JSON
merge. -/
def StepFails {Typed Unstr Ann Meta Err : Type} (env : Collaborators Typed Unstr Ann Meta Err)
    (currentObject modifiedObject : RuntimeObject Typed Unstr) : Prop :=
  (∃ e, env.Marshal currentObject = .error e) ∨
  (∃ e, env.Marshal modifiedObject = .error e) ∨
  (∃ raw e, env.Marshal modifiedObject = .ok raw ∧ env.DeleteNullInJson raw = .error e) ∨
  (∃ e, env.GetOriginalConfiguration env.DefaultAnnotator currentObject = .error e) ∨
  (∃ t e, currentObject = .typed t ∧ env.NewPatchMetaFromStruct modifiedObject = .error e) ∨
  (∃ t current raw modified original meta e,
      currentObject = .typed t ∧
      env.Marshal currentObject = .ok current ∧
      env.Marshal modifiedObject = .ok raw ∧
      env.DeleteNullInJson raw = .ok modified ∧
      env.GetOriginalConfiguration env.DefaultAnnotator currentObject = .ok original ∧
      env.NewPatchMetaFromStruct modifiedObject = .ok meta ∧
      env.CreateThreeWayMergePatch original modified current meta true = .error e) ∨
  (∃ u current raw modified original e,
      currentObject = .unstructured u ∧
      env.Marshal currentObject = .ok current ∧
      env.Marshal modifiedObject = .ok raw ∧
      env.DeleteNullInJson raw = .ok modified ∧
      env.GetOriginalConfiguration env.DefaultAnnotator currentObject = .ok original ∧
      env.CreateThreeWayJSONMergePatch original modified current = .error e)

/-- The steps of `Calculate` that can fail, in program order; of the last
three, the first two belong to the typed branch and the third to the untyped one. -/
inductive Step where
  | marshalCurrent
  | marshalModified
  | deleteNull
  | getOriginal
  | lookupPatchMeta
  | strategicMerge
  | jsonMerge
deriving DecidableEq, Repr

/-- `FirstFailure env c m s e`: every step before `s` succeeds and step `s`
fails with the underlying error `e`. Nothing is said about the steps after `s`. -/
def FirstFailure {Typed Unstr Ann Meta Err : Type} (env : Collaborators Typed Unstr Ann Meta Err)
    (currentObject modifiedObject : RuntimeObject Typed Unstr) : Step → Err → Prop
  | .marshalCurrent, e => env.Marshal currentObject = .error e
  | .marshalModified, e =>
      ∃ current, env.Marshal currentObject = .ok current ∧
        env.Marshal modifiedObject = .error e
  | .deleteNull, e =>
      ∃ current raw, env.Marshal currentObject = .ok current ∧
        env.Marshal modifiedObject = .ok raw ∧
        env.DeleteNullInJson raw = .error e
  | .getOriginal, e =>
      ∃ current raw modified, env.Marshal currentObject = .ok current ∧
        env.Marshal modifiedObject = .ok raw ∧
        env.DeleteNullInJson raw = .ok modified ∧
        env.GetOriginalConfiguration env.DefaultAnnotator currentObject = .error e
  | .lookupPatchMeta, e =>
      ∃ t current raw modified original, currentObject = .typed t ∧
        env.Marshal currentObject = .ok current ∧
        env.Marshal modifiedObject = .ok raw ∧
        env.DeleteNullInJson raw = .ok modified ∧
        env.GetOriginalConfiguration env.DefaultAnnotator currentObject = .ok original ∧
        env.NewPatchMetaFromStruct modifiedObject = .error e
  | .strategicMerge, e =>
      ∃ t current raw modified original meta, currentObject = .typed t ∧
        env.Marshal currentObject = .ok current ∧
        env.Marshal modifiedObject = .ok raw ∧
        env.DeleteNullInJson raw = .ok modified ∧
        env.GetOriginalConfiguration env.DefaultAnnotator currentObject = .ok original ∧
        env.NewPatchMetaFromStruct modifiedObject = .ok meta ∧
        env.CreateThreeWayMergePatch original modified current meta true = .error e
  | .jsonMerge, e =>
      ∃ u current raw modified original, currentObject = .unstructured u ∧
        env.Marshal currentObject = .ok current ∧
        env.Marshal modifiedObject = .ok raw ∧
        env.DeleteNullInJson raw = .ok modified ∧
        env.GetOriginalConfiguration env.DefaultAnnotator currentObject = .ok original ∧
        env.CreateThreeWayJSONMergePatch original modified current = .error e

/-- The error value each `return nil, ...` of `Calculate` builds, by step. -/
def errorOfStep {Err Obj : Type} (currentObject : Obj) (e : Err) : Step → WrappedError Err Obj
  | .marshalCurrent => Wrap e "Failed to convert current object to byte sequence"
  | .marshalModified => Wrap e "Failed to convert current object to byte sequence"
  | .deleteNull => Wrap e "Failed to delete null from modified object"
  | .getOriginal => Wrap e "Failed to get original configuration"
  | .lookupPatchMeta => WrapWith e "Failed to lookup patch meta" "current object" currentObject
  | .strategicMerge => Wrap e "Failed to generate strategic merge patch"
  | .jsonMerge => Wrap e "Failed to generate merge patch"

/-- `WrapsStepError modifiedMessage c err s e`: `err` is the underlying error
`e` of step `s` wrapped with the message of that step, where `modifiedMessage`
is the message of the step that serializes the modified object; the wrapping
attaches the current object `c` under the key `current object` when `s` is the
merge-metadata lookup, and attaches nothing at any other step. -/
def WrapsStepError {Err Obj : Type} (modifiedMessage : String) (c : Obj)
    (err : WrappedError Err Obj) (s : Step) (e : Err) : Prop :=
  match s with
  | .marshalCurrent => err = Wrap e "Failed to convert current object to byte sequence"
  | .marshalModified => err = Wrap e modifiedMessage
  | .deleteNull => err = Wrap e "Failed to delete null from modified object"
  | .getOriginal => err = Wrap e "Failed to get original configuration"
  | .lookupPatchMeta => err = WrapWith e "Failed to lookup patch meta" "current object" c
  | .strategicMerge => err = Wrap e "Failed to generate strategic merge patch"
  | .jsonMerge => err = Wrap e "Failed to generate merge patch"

/-- What a successful `Calculate` has read and computed to build the result `r`. -/
def BuiltFrom {Typed Unstr Ann Meta Err : Type} (env : Collaborators Typed Unstr Ann Meta Err)
    (currentObject modifiedObject : RuntimeObject Typed Unstr) (r : PatchResult) : Prop :=
  env.Marshal currentObject = .ok r.Current ∧
  (∃ raw, env.Marshal modifiedObject = .ok raw ∧ env.DeleteNullInJson raw = .ok r.Modified) ∧
  env.GetOriginalConfiguration env.DefaultAnnotator currentObject = .ok r.Original ∧
  ((∃ u, currentObject = .unstructured u ∧
      env.CreateThreeWayJSONMergePatch r.Original r.Modified r.Current = .ok r.Patch) ∨
   (∃ t meta, currentObject = .typed t ∧ env.NewPatchMetaFromStruct modifiedObject = .ok meta ∧
      env.CreateThreeWayMergePatch r.Original r.Modified r.Current meta true = .ok r.Patch))

/-! ## A small concrete instance -/

/-- The bytes of the JSON text whose only field is `"a":1`. -/
def bytesA1 : ByteSlice := .slice [0x7b, 0x22, 0x61, 0x22, 0x3a, 0x31, 0x7d]

/-- The bytes of the JSON text whose only field is `"a":2`. -/
def bytesA2 : ByteSlice := .slice [0x7b, 0x22, 0x61, 0x22, 0x3a, 0x32, 0x7d]

/-- The bytes of the JSON text with the fields `"a":1,"f":null`. -/
def bytesA1FNull : ByteSlice :=
  .slice [0x7b, 0x22, 0x61, 0x22, 0x3a, 0x31, 0x2c,
          0x22, 0x66, 0x22, 0x3a, 0x6e, 0x75, 0x6c, 0x6c, 0x7d]

/-- The bytes of the empty JSON object. -/
def bytesEmptyObject : ByteSlice := .slice [0x7b, 0x7d]

/-- A reader and writer for the three documents above. -/
def demoCodec : JsonCodec String where
  decode b :=
    if b = bytesA1 then .ok (.obj [("a", .num 1)])
    else if b = bytesA2 then .ok (.obj [("a", .num 2)])
    else if b = bytesA1FNull then .ok (.obj [("a", .num 1), ("f", .null)])
    else if b = bytesEmptyObject then .ok (.obj [])
    else .error "invalid character"
  encode
    | .obj [("a", .num 1)] => bytesA1
    | .obj [("a", .num 2)] => bytesA2
    | .obj [("a", .num 1), ("f", .null)] => bytesA1FNull
    | _ => bytesEmptyObject

/-- Objects numbered 0 to 5, typed or unstructured: 0 cannot be serialized,
1 and 4 and 5 serialize to `"a":1`, 2 to `"a":2`, 3 to `"a":1,"f":null`; reading
the original configuration of 4 fails, the type of 5 has no merge metadata, and
the other typed objects share one type, with merge metadata 7. -/
def demoEnv : Collaborators Nat Nat Nat Nat String where
  Marshal
    | .typed 0 | .unstructured 0 => .error "json: unsupported type"
    | .typed 2 | .unstructured 2 => .ok bytesA2
    | .typed 3 | .unstructured 3 => .ok bytesA1FNull
    | _ => .ok bytesA1
  DeleteNullInJson := DeleteNullInJson demoCodec
  DefaultAnnotator := 0
  GetOriginalConfiguration ann obj :=
    match ann, obj with
    | _, .typed 4 | _, .unstructured 4 => .error "invalid character"
    | 0, _ => .ok bytesA1
    | _, _ => .ok bytesEmptyObject
  NewPatchMetaFromStruct
    | .typed 5 => .error "unknown type"
    | .typed _ => .ok 7
    | .unstructured _ => .ok 0
  CreateThreeWayMergePatch _original modified current _meta overwrite :=
    if overwrite = false then .error "conflict"
    else if modified = current then .ok bytesEmptyObject
    else .ok modified
  CreateThreeWayJSONMergePatch _original modified current :=
    if modified = current then .ok bytesEmptyObject else .ok modified

/-! ## Theorems -/

/-- C1: `IsUnmodified` is true exactly when `Patch` is the two-byte sequence
`{}`; a nil or empty `Patch`, `{ }` and `{}` followed by a newline give false;
and the other three fields have no influence on the result. -/
theorem isUnmodified_iff_patch_is_empty_object :
    (∀ r : PatchResult,
        r.IsUnmodified = true ↔ r.Patch = ByteSlice.slice [0x7b, 0x7d]) ∧
    (∀ cur mod orig : ByteSlice,
        PatchResult.IsUnmodified ⟨ByteSlice.nil, cur, mod, orig⟩ = false ∧
        PatchResult.IsUnmodified ⟨ByteSlice.slice [], cur, mod, orig⟩ = false ∧
        PatchResult.IsUnmodified ⟨ByteSlice.slice [0x7b, 0x20, 0x7d], cur, mod, orig⟩ = false ∧
        PatchResult.IsUnmodified ⟨ByteSlice.slice [0x7b, 0x7d, 0x0a], cur, mod, orig⟩ = false) ∧
    (∀ r s : PatchResult, r.Patch = s.Patch → r.IsUnmodified = s.IsUnmodified) := by
  refine ⟨?_, ?_, ?_⟩
  · intro r
    cases hp : r.Patch with
    | nil => simp [PatchResult.IsUnmodified, ByteSlice.toGoString, emptyObjectLiteral, hp]
    | slice bytes =>
      simp [PatchResult.IsUnmodified, ByteSlice.toGoString, emptyObjectLiteral, hp]
  · intro cur mod orig
    refine ⟨?_, ?_, ?_, ?_⟩ <;>
      simp [PatchResult.IsUnmodified, ByteSlice.toGoString, emptyObjectLiteral]
  · intro r s h
    simp [PatchResult.IsUnmodified, h]

/-! ### `Calculate` once its first four steps have succeeded -/

/-- A typed current object, after the two serializations, the null stripping
and the read of the original configuration have succeeded. -/
theorem calculate_typed_after_reads {Typed Unstr Ann Meta Err : Type}
    (env : Collaborators Typed Unstr Ann Meta Err) (p : PatchMaker Ann) (t : Typed)
    (m : RuntimeObject Typed Unstr) {current raw modified original : ByteSlice}
    (hc : env.Marshal (.typed t) = .ok current) (hm : env.Marshal m = .ok raw)
    (hs : env.DeleteNullInJson raw = .ok modified)
    (ho : env.GetOriginalConfiguration env.DefaultAnnotator (.typed t) = .ok original) :
    Calculate env p (.typed t) m =
      match env.NewPatchMetaFromStruct m with
      | .error err =>
        (none, some (WrapWith err "Failed to lookup patch meta" "current object" (.typed t)))
      | .ok meta =>
        match env.CreateThreeWayMergePatch original modified current meta true with
        | .error err => (none, some (Wrap err "Failed to generate strategic merge patch"))
        | .ok patch => (some ⟨patch, current, modified, original⟩, none) := by
  simp only [Calculate, hc, hm, hs, ho]

/-- An untyped current object, after the two serializations, the null stripping
and the read of the original configuration have succeeded. -/
theorem calculate_unstructured_after_reads {Typed Unstr Ann Meta Err : Type}
    (env : Collaborators Typed Unstr Ann Meta Err) (p : PatchMaker Ann) (u : Unstr)
    (m : RuntimeObject Typed Unstr) {current raw modified original : ByteSlice}
    (hc : env.Marshal (.unstructured u) = .ok current) (hm : env.Marshal m = .ok raw)
    (hs : env.DeleteNullInJson raw = .ok modified)
    (ho : env.GetOriginalConfiguration env.DefaultAnnotator (.unstructured u) = .ok original) :
    Calculate env p (.unstructured u) m =
      match env.CreateThreeWayJSONMergePatch original modified current with
      | .error err => (none, some (Wrap err "Failed to generate merge patch"))
      | .ok patch => (some ⟨patch, current, modified, original⟩, none) := by
  simp only [Calculate, hc, hm, hs, ho]

/-- Every call of `Calculate` either returns a result built from what the
collaborators returned and no error, or returns no result and the error of the
first failing step. -/
theorem calculate_outcome {Typed Unstr Ann Meta Err : Type}
    (env : Collaborators Typed Unstr Ann Meta Err) (p : PatchMaker Ann)
    (c m : RuntimeObject Typed Unstr) :
    (∃ r : PatchResult, Calculate env p c m = (some r, none) ∧ BuiltFrom env c m r) ∨
    (∃ s e, FirstFailure env c m s e ∧
      Calculate env p c m = (none, some (errorOfStep c e s))) := by
  cases hc : env.Marshal c with
  | error e =>
    exact Or.inr ⟨.marshalCurrent, e, hc, by simp only [Calculate, hc, errorOfStep]⟩
  | ok current =>
  cases hm : env.Marshal m with
  | error e =>
    exact Or.inr ⟨.marshalModified, e, ⟨current, hc, hm⟩,
      by simp only [Calculate, hc, hm, errorOfStep]⟩
  | ok raw =>
  cases hs : env.DeleteNullInJson raw with
  | error e =>
    exact Or.inr ⟨.deleteNull, e, ⟨current, raw, hc, hm, hs⟩,
      by simp only [Calculate, hc, hm, hs, errorOfStep]⟩
  | ok modified =>
  cases ho : env.GetOriginalConfiguration env.DefaultAnnotator c with
  | error e =>
    exact Or.inr ⟨.getOriginal, e, ⟨current, raw, modified, hc, hm, hs, ho⟩,
      by simp only [Calculate, hc, hm, hs, ho, errorOfStep]⟩
  | ok original =>
  cases c with
  | unstructured u =>
    rw [calculate_unstructured_after_reads env p u m hc hm hs ho]
    cases hj : env.CreateThreeWayJSONMergePatch original modified current with
    | error e =>
      exact Or.inr ⟨.jsonMerge, e, ⟨u, current, raw, modified, original, rfl, hc, hm, hs, ho, hj⟩,
        by simp only [errorOfStep]⟩
    | ok patch =>
      exact Or.inl ⟨⟨patch, current, modified, original⟩, rfl, hc, ⟨raw, hm, hs⟩, ho,
        Or.inl ⟨u, rfl, hj⟩⟩
  | typed t =>
    rw [calculate_typed_after_reads env p t m hc hm hs ho]
    cases hl : env.NewPatchMetaFromStruct m with
    | error e =>
      exact Or.inr ⟨.lookupPatchMeta, e,
        ⟨t, current, raw, modified, original, rfl, hc, hm, hs, ho, hl⟩,
        by simp only [errorOfStep]⟩
    | ok meta =>
      cases hj : env.CreateThreeWayMergePatch original modified current meta true with
      | error e =>
        exact Or.inr ⟨.strategicMerge, e,
          ⟨t, current, raw, modified, original, meta, rfl, hc, hm, hs, ho, hl, hj⟩,
          by simp only [hj, errorOfStep]⟩
      | ok patch =>
        exact Or.inl ⟨⟨patch, current, modified, original⟩, by simp only [hj], hc,
          ⟨raw, hm, hs⟩, ho, Or.inr ⟨t, meta, rfl, hl, hj⟩⟩

/-- The first failing step alone fixes what `Calculate` returns. -/
theorem calculate_of_firstFailure {Typed Unstr Ann Meta Err : Type}
    (env : Collaborators Typed Unstr Ann Meta Err) (p : PatchMaker Ann)
    (c m : RuntimeObject Typed Unstr) (s : Step) (e : Err) (h : FirstFailure env c m s e) :
    Calculate env p c m = (none, some (errorOfStep c e s)) := by
  cases s with
  | marshalCurrent =>
    simp only [FirstFailure] at h
    simp only [Calculate, h, errorOfStep]
  | marshalModified =>
    obtain ⟨current, hc, hm⟩ := h
    simp only [Calculate, hc, hm, errorOfStep]
  | deleteNull =>
    obtain ⟨current, raw, hc, hm, hs⟩ := h
    simp only [Calculate, hc, hm, hs, errorOfStep]
  | getOriginal =>
    obtain ⟨current, raw, modified, hc, hm, hs, ho⟩ := h
    simp only [Calculate, hc, hm, hs, ho, errorOfStep]
  | lookupPatchMeta =>
    obtain ⟨t, current, raw, modified, original, rfl, hc, hm, hs, ho, hl⟩ := h
    simp only [Calculate, hc, hm, hs, ho, hl, errorOfStep]
  | strategicMerge =>
    obtain ⟨t, current, raw, modified, original, meta, rfl, hc, hm, hs, ho, hl, hj⟩ := h
    simp only [Calculate, hc, hm, hs, ho, hl, hj, errorOfStep]
  | jsonMerge =>
    obtain ⟨u, current, raw, modified, original, rfl, hc, hm, hs, ho, hj⟩ := h
    simp only [Calculate, hc, hm, hs, ho, hj, errorOfStep]

/-- A failing step in the sense of `StepFails` gives a first failing step. -/
theorem firstFailure_of_stepFails {Typed Unstr Ann Meta Err : Type}
    (env : Collaborators Typed Unstr Ann Meta Err) (p : PatchMaker Ann)
    (c m : RuntimeObject Typed Unstr) (h : StepFails env c m) :
    ∃ s e, FirstFailure env c m s e := by
  rcases calculate_outcome env p c m with ⟨r, -, hcur, ⟨raw, hm, hs⟩, ho, hmerge⟩ | ⟨s, e, hf, -⟩
  · exfalso
    rcases h with ⟨e, h⟩ | ⟨e, h⟩ | ⟨raw2, e, h, h2⟩ | ⟨e, h⟩ | ⟨t, e, hct, h⟩ |
      ⟨t, c2, r2, m2, o2, meta2, e, hct, h1, h2, h3, h4, h5, h6⟩ |
      ⟨u, c2, r2, m2, o2, e, hcu, h1, h2, h3, h4, h6⟩
    · simp [hcur] at h
    · simp [hm] at h
    · rw [hm] at h
      cases h
      simp [hs] at h2
    · simp [ho] at h
    · rcases hmerge with ⟨u, hu, -⟩ | ⟨t2, meta, -, hl, -⟩
      · simp [hu] at hct
      · simp [hl] at h
    · rcases hmerge with ⟨u, hu, -⟩ | ⟨t2, meta, -, hl, hj⟩
      · simp [hu] at hct
      · rw [hcur] at h1; cases h1
        rw [hm] at h2; cases h2
        rw [hs] at h3; cases h3
        rw [ho] at h4; cases h4
        rw [hl] at h5; cases h5
        simp [hj] at h6
    · rcases hmerge with ⟨u2, -, hj⟩ | ⟨t2, meta, ht, -, -⟩
      · rw [hcur] at h1; cases h1
        rw [hm] at h2; cases h2
        rw [hs] at h3; cases h3
        rw [ho] at h4; cases h4
        simp [hj] at h6
      · simp [ht] at hcu
  · exact ⟨s, e, hf⟩

/-- A first failing step is a failing step in the sense of `StepFails`. -/
theorem stepFails_of_firstFailure {Typed Unstr Ann Meta Err : Type}
    (env : Collaborators Typed Unstr Ann Meta Err)
    (c m : RuntimeObject Typed Unstr) (s : Step) (e : Err) (h : FirstFailure env c m s e) :
    StepFails env c m := by
  cases s with
  | marshalCurrent => exact Or.inl ⟨e, h⟩
  | marshalModified =>
    obtain ⟨current, -, hm⟩ := h
    exact Or.inr (Or.inl ⟨e, hm⟩)
  | deleteNull =>
    obtain ⟨current, raw, -, hm, hs⟩ := h
    exact Or.inr (Or.inr (Or.inl ⟨raw, e, hm, hs⟩))
  | getOriginal =>
    obtain ⟨current, raw, modified, -, -, -, ho⟩ := h
    exact Or.inr (Or.inr (Or.inr (Or.inl ⟨e, ho⟩)))
  | lookupPatchMeta =>
    obtain ⟨t, current, raw, modified, original, hct, -, -, -, -, hl⟩ := h
    exact Or.inr (Or.inr (Or.inr (Or.inr (Or.inl ⟨t, e, hct, hl⟩))))
  | strategicMerge =>
    obtain ⟨t, current, raw, modified, original, meta, hct, hc, hm, hs, ho, hl, hj⟩ := h
    exact Or.inr (Or.inr (Or.inr (Or.inr (Or.inr (Or.inl
      ⟨t, current, raw, modified, original, meta, e, hct, hc, hm, hs, ho, hl, hj⟩)))))
  | jsonMerge =>
    obtain ⟨u, current, raw, modified, original, hcu, hc, hm, hs, ho, hj⟩ := h
    exact Or.inr (Or.inr (Or.inr (Or.inr (Or.inr (Or.inr
      ⟨u, current, raw, modified, original, e, hcu, hc, hm, hs, ho, hj⟩)))))

/-- C2: whenever `Calculate` returns no error, it returns a result whose
`Current` is the serialization of the current object as `json.Marshal` gave it,
whose `Modified` is the null-stripped serialization of the modified object,
whose `Original` is what `GetOriginalConfiguration` returned for the current
object, and whose `Patch` is what the merge algorithm returned for exactly
`(Original, Modified, Current)`. -/
theorem calculate_success_fields {Typed Unstr Ann Meta Err : Type}
    (env : Collaborators Typed Unstr Ann Meta Err) (p : PatchMaker Ann)
    (c m : RuntimeObject Typed Unstr) (hok : (Calculate env p c m).2 = none) :
    ∃ r : PatchResult, Calculate env p c m = (some r, none) ∧
      env.Marshal c = .ok r.Current ∧
      (∃ raw, env.Marshal m = .ok raw ∧ env.DeleteNullInJson raw = .ok r.Modified) ∧
      env.GetOriginalConfiguration env.DefaultAnnotator c = .ok r.Original ∧
      ((∃ u, c = .unstructured u ∧
          env.CreateThreeWayJSONMergePatch r.Original r.Modified r.Current = .ok r.Patch) ∨
       (∃ t meta, c = .typed t ∧ env.NewPatchMetaFromStruct m = .ok meta ∧
          env.CreateThreeWayMergePatch r.Original r.Modified r.Current meta true
            = .ok r.Patch)) := by
  rcases calculate_outcome env p c m with ⟨r, hr, hbuilt⟩ | ⟨s, e, -, herr⟩
  · exact ⟨r, hr, hbuilt⟩
  · rw [herr] at hok
    cases hok

/-- Witness for C2: a typed object serializing to `"a":1`, compared with one
serializing to `"a":2`. -/
theorem calculate_success_fields_witness :
    (Calculate demoEnv ⟨0⟩ (.typed 1) (.typed 2)).2 = none ∧
    ∃ r : PatchResult, Calculate demoEnv ⟨0⟩ (.typed 1) (.typed 2) = (some r, none) ∧
      demoEnv.Marshal (.typed 1) = .ok r.Current ∧
      (∃ raw, demoEnv.Marshal (.typed 2) = .ok raw ∧
        demoEnv.DeleteNullInJson raw = .ok r.Modified) ∧
      demoEnv.GetOriginalConfiguration demoEnv.DefaultAnnotator (.typed 1) = .ok r.Original ∧
      ((∃ u, (RuntimeObject.typed 1 : RuntimeObject Nat Nat) = .unstructured u ∧
          demoEnv.CreateThreeWayJSONMergePatch r.Original r.Modified r.Current = .ok r.Patch) ∨
       (∃ t meta, (RuntimeObject.typed 1 : RuntimeObject Nat Nat) = .typed t ∧
          demoEnv.NewPatchMetaFromStruct (.typed 2) = .ok meta ∧
          demoEnv.CreateThreeWayMergePatch r.Original r.Modified r.Current meta true
            = .ok r.Patch)) :=
  ⟨by rfl, calculate_success_fields demoEnv ⟨0⟩ (.typed 1) (.typed 2) (by rfl)⟩

/-- C3: the merge algorithm is picked from the current object alone. For an
untyped current object the outcome is that of the JSON three-way merge over
`(original, modified, current)`, and neither the merge-metadata lookup nor the
schema-aware merge has any influence on it. For every other current object the
outcome is that of the lookup on the modified object followed by the
schema-aware merge over `(original, modified, current, metadata, true)`; the
lookup is consulted at the modified object only, the schema-aware merge with
overwrite `true` only, and the JSON merge not at all. -/
theorem calculate_merge_selection {Typed Unstr Ann Meta Err : Type}
    (env : Collaborators Typed Unstr Ann Meta Err) (p : PatchMaker Ann)
    (m : RuntimeObject Typed Unstr) :
    (∀ (u : Unstr) (current raw modified original : ByteSlice),
      env.Marshal (.unstructured u) = .ok current → env.Marshal m = .ok raw →
      env.DeleteNullInJson raw = .ok modified →
      env.GetOriginalConfiguration env.DefaultAnnotator (.unstructured u) = .ok original →
      Calculate env p (.unstructured u) m =
        match env.CreateThreeWayJSONMergePatch original modified current with
        | .error err => (none, some (Wrap err "Failed to generate merge patch"))
        | .ok patch => (some ⟨patch, current, modified, original⟩, none)) ∧
    (∀ (u : Unstr) (lookup : RuntimeObject Typed Unstr → Except Err Meta)
      (strategic : ByteSlice → ByteSlice → ByteSlice → Meta → Bool → Except Err ByteSlice),
      Calculate { env with NewPatchMetaFromStruct := lookup,
                           CreateThreeWayMergePatch := strategic } p (.unstructured u) m =
        Calculate env p (.unstructured u) m) ∧
    (∀ (t : Typed) (current raw modified original : ByteSlice),
      env.Marshal (.typed t) = .ok current → env.Marshal m = .ok raw →
      env.DeleteNullInJson raw = .ok modified →
      env.GetOriginalConfiguration env.DefaultAnnotator (.typed t) = .ok original →
      Calculate env p (.typed t) m =
        match env.NewPatchMetaFromStruct m with
        | .error err =>
          (none, some (WrapWith err "Failed to lookup patch meta" "current object" (.typed t)))
        | .ok meta =>
          match env.CreateThreeWayMergePatch original modified current meta true with
          | .error err => (none, some (Wrap err "Failed to generate strategic merge patch"))
          | .ok patch => (some ⟨patch, current, modified, original⟩, none)) ∧
    (∀ (t : Typed) (lookup : RuntimeObject Typed Unstr → Except Err Meta)
      (strategic : ByteSlice → ByteSlice → ByteSlice → Meta → Bool → Except Err ByteSlice)
      (jsonMerge : ByteSlice → ByteSlice → ByteSlice → Except Err ByteSlice),
      lookup m = env.NewPatchMetaFromStruct m →
      (∀ original modified current meta,
        strategic original modified current meta true =
          env.CreateThreeWayMergePatch original modified current meta true) →
      Calculate { env with NewPatchMetaFromStruct := lookup,
                           CreateThreeWayMergePatch := strategic,
                           CreateThreeWayJSONMergePatch := jsonMerge } p (.typed t) m =
        Calculate env p (.typed t) m) := by
  refine ⟨?_, ?_, ?_, ?_⟩
  · intro u current raw modified original hc hm hs ho
    exact calculate_unstructured_after_reads env p u m hc hm hs ho
  · intro u lookup strategic
    rfl
  · intro t current raw modified original hc hm hs ho
    exact calculate_typed_after_reads env p t m hc hm hs ho
  · intro t lookup strategic jsonMerge hl hstrat
    simp only [Calculate, hl, hstrat]

/-- Witness for C3: an untyped current object compared with a modified object
whose type has no merge metadata is still patched, by the JSON merge; a typed
current object compared with the same modified object fails in the lookup. -/
theorem calculate_merge_selection_witness :
    Calculate demoEnv ⟨0⟩ (.unstructured 1) (.typed 5)
      = (some ⟨bytesEmptyObject, bytesA1, bytesA1, bytesA1⟩, none) ∧
    Calculate demoEnv ⟨0⟩ (.typed 1) (.typed 5)
      = (none, some (WrapWith "unknown type" "Failed to lookup patch meta" "current object"
          (.typed 1))) :=
  ⟨((calculate_merge_selection demoEnv ⟨0⟩ (.typed 5)).1 1 bytesA1 bytesA1 bytesA1 bytesA1
      rfl rfl rfl rfl).trans rfl,
   ((calculate_merge_selection demoEnv ⟨0⟩ (.typed 5)).2.2.1 1 bytesA1 bytesA1 bytesA1 bytesA1
      rfl rfl rfl rfl).trans rfl⟩

/-- C4: `Calculate` returns an error exactly when one of its steps fails; with
an error the result is nil; the first failing step decides the error, and any
two runs in which the same step is the first to fail, with the same underlying
error, return the same, whatever the later steps would do; and when no step
fails a non-nil result is returned with a nil error. -/
theorem calculate_error_iff_step_fails {Typed Unstr Ann Meta Err : Type}
    (env : Collaborators Typed Unstr Ann Meta Err) (p : PatchMaker Ann)
    (c m : RuntimeObject Typed Unstr) :
    ((Calculate env p c m).2 ≠ none ↔ StepFails env c m) ∧
    ((Calculate env p c m).2 ≠ none → (Calculate env p c m).1 = none) ∧
    (∀ s e, FirstFailure env c m s e →
      (Calculate env p c m).1 = none ∧
      (∃ err, (Calculate env p c m).2 = some err ∧ err.cause = e) ∧
      ∀ other : Collaborators Typed Unstr Ann Meta Err, FirstFailure other c m s e →
        Calculate other p c m = Calculate env p c m) ∧
    (¬ StepFails env c m →
      ∃ r, (Calculate env p c m).1 = some r ∧ (Calculate env p c m).2 = none) := by
  refine ⟨⟨?_, ?_⟩, ?_, ?_, ?_⟩
  · intro herr
    rcases calculate_outcome env p c m with ⟨r, hr, -⟩ | ⟨s, e, hf, -⟩
    · rw [hr] at herr
      exact absurd rfl herr
    · exact stepFails_of_firstFailure env c m s e hf
  · intro hfail
    obtain ⟨s, e, hf⟩ := firstFailure_of_stepFails env p c m hfail
    rw [calculate_of_firstFailure env p c m s e hf]
    simp
  · intro herr
    rcases calculate_outcome env p c m with ⟨r, hr, -⟩ | ⟨s, e, -, hres⟩
    · rw [hr] at herr
      exact absurd rfl herr
    · rw [hres]
  · intro s e hf
    have hres := calculate_of_firstFailure env p c m s e hf
    refine ⟨by rw [hres], ⟨errorOfStep c e s, by rw [hres], ?_⟩, ?_⟩
    · cases s <;> rfl
    · intro other hother
      rw [hres, calculate_of_firstFailure other p c m s e hother]
  · intro hno
    rcases calculate_outcome env p c m with ⟨r, hr, -⟩ | ⟨s, e, hf, -⟩
    · exact ⟨r, by rw [hr], by rw [hr]⟩
    · exact absurd (stepFails_of_firstFailure env c m s e hf) hno

/-- Witness for C4: an object that cannot be serialized as the current object
gives an error and a nil result, although every later step would succeed; and
for two objects on which no step fails, a result and a nil error come back. -/
theorem calculate_error_iff_step_fails_witness :
    StepFails demoEnv (.typed 0) (.typed 1) ∧
    (Calculate demoEnv ⟨0⟩ (.typed 0) (.typed 1)).2 ≠ none ∧
    (Calculate demoEnv ⟨0⟩ (.typed 0) (.typed 1)).1 = none ∧
    ¬ StepFails demoEnv (.typed 1) (.typed 2) ∧
    ∃ r, (Calculate demoEnv ⟨0⟩ (.typed 1) (.typed 2)).1 = some r ∧
      (Calculate demoEnv ⟨0⟩ (.typed 1) (.typed 2)).2 = none :=
  have hfail : StepFails demoEnv (.typed 0) (.typed 1) := Or.inl ⟨"json: unsupported type", rfl⟩
  have h := calculate_error_iff_step_fails demoEnv ⟨0⟩ (.typed 0) (.typed 1)
  have k := calculate_error_iff_step_fails demoEnv ⟨0⟩ (.typed 1) (.typed 2)
  have hnone : ¬ StepFails demoEnv (.typed 1) (.typed 2) := fun hs => k.1.2 hs rfl
  ⟨hfail, h.1.2 hfail, h.2.1 (h.1.2 hfail), hnone, k.2.2.2 hnone⟩

/-- When serializing the modified object fails, the message of the error
returned is the one used for the current object. -/
theorem calculate_marshal_modified_message {Typed Unstr Ann Meta Err : Type}
    (env : Collaborators Typed Unstr Ann Meta Err) (p : PatchMaker Ann)
    (c m : RuntimeObject Typed Unstr) (current : ByteSlice) (e : Err)
    (hc : env.Marshal c = .ok current) (hm : env.Marshal m = .error e) :
    Calculate env p c m
      = (none, some (Wrap e "Failed to convert current object to byte sequence")) := by
  simp only [Calculate, hc, hm]

/-- C5, as stated, fails: when serializing the current object fails,
`Calculate` wraps the underlying error with a message and attaches no object
at all to it. -/
theorem calculate_error_without_object_context :
    (Calculate demoEnv ⟨0⟩ (.typed 0) (.typed 1)).2
      = some ⟨"json: unsupported type", "Failed to convert current object to byte sequence", []⟩ ∧
    ¬ ∀ err, (Calculate demoEnv ⟨0⟩ (.typed 0) (.typed 1)).2 = some err →
        ∃ kv ∈ err.keyvals, kv.2 = RuntimeObject.typed 0 := by
  refine ⟨rfl, ?_⟩
  intro h
  obtain ⟨kv, hkv, -⟩ :=
    h ⟨"json: unsupported type", "Failed to convert current object to byte sequence", []⟩ rfl
  cases hkv

/-- C5, amended: every error returned by `Calculate` is the underlying error
of the first failing step, wrapped by `Calculate` with a message that is fixed
for that step: one text, the same for all objects and all collaborators, also
for the step that serializes the modified object. When serializing the current
object, null stripping, reading the original configuration, the merge-metadata
lookup or a merge fails, the message names that operation. `Calculate` attaches
an object as context only to the error of a failed merge-metadata lookup: the
current object, under the key `current object`; to every other error it
attaches no context of its own. -/
theorem calculate_error_shape :
    ∃ modifiedMessage : String,
      ∀ (Typed Unstr Ann Meta Err : Type) (env : Collaborators Typed Unstr Ann Meta Err)
        (p : PatchMaker Ann) (c m : RuntimeObject Typed Unstr)
        (err : WrappedError Err (RuntimeObject Typed Unstr)),
        (Calculate env p c m).2 = some err →
        ∃ s e, FirstFailure env c m s e ∧ WrapsStepError modifiedMessage c err s e := by
  refine ⟨"Failed to convert current object to byte sequence", ?_⟩
  intro Typed Unstr Ann Meta Err env p c m err h
  rcases calculate_outcome env p c m with ⟨r, hr, -⟩ | ⟨s, e, hf, hres⟩
  · rw [hr] at h
    cases h
  · rw [hres] at h
    simp only [Option.some.injEq] at h
    subst h
    refine ⟨s, e, hf, ?_⟩
    cases s <;> simp only [errorOfStep, WrapsStepError]

/-- Witness for C5 (amended): with a typed current object, a modified object
whose type has no merge metadata, and a modified object that cannot be
serialized; the message of the latter step is the same text in both. -/
theorem calculate_error_shape_witness :
    ∃ modifiedMessage : String,
      ((Calculate demoEnv ⟨0⟩ (.typed 1) (.typed 5)).2
        = some (WrapWith "unknown type" "Failed to lookup patch meta" "current object"
            (.typed 1)) ∧
       ∃ s e, FirstFailure demoEnv (.typed 1) (.typed 5) s e ∧
        WrapsStepError modifiedMessage (RuntimeObject.typed 1 : RuntimeObject Nat Nat)
          (WrapWith "unknown type" "Failed to lookup patch meta" "current object" (.typed 1))
          s e) ∧
      (∃ err, (Calculate demoEnv ⟨0⟩ (.unstructured 2) (.typed 0)).2 = some err ∧
        err.cause = "json: unsupported type" ∧ err.keyvals = [] ∧
        ∃ s e, FirstFailure demoEnv (.unstructured 2) (.typed 0) s e ∧
          WrapsStepError modifiedMessage (RuntimeObject.unstructured 2 : RuntimeObject Nat Nat)
            err s e) :=
  calculate_error_shape.elim fun modifiedMessage h =>
    ⟨modifiedMessage,
      ⟨rfl, h Nat Nat Nat Nat String demoEnv ⟨0⟩ (.typed 1) (.typed 5) _ rfl⟩,
      ⟨_, rfl, rfl, rfl,
        h Nat Nat Nat Nat String demoEnv ⟨0⟩ (.unstructured 2) (.typed 0) _ rfl⟩⟩

/-! ### The Null-Stripper -/

/-- Stripping the fields of an object goes field by field. -/
theorem stripFields_append (front back : List (String × Json)) :
    stripFields (front ++ back) = stripFields front ++ stripFields back := by
  induction front with
  | nil => simp [stripFields]
  | cons kv rest ih =>
    obtain ⟨k, v⟩ := kv
    cases v <;> simp [stripFields, ih]

/-- Stripping the elements of an array goes element by element. -/
theorem stripElems_append (front back : List Json) :
    stripElems (front ++ back) = stripElems front ++ stripElems back := by
  induction front with
  | nil => simp [stripElems]
  | cons x rest ih => simp [stripElems, ih]

/-- A field whose value is not null is kept, with its value stripped. -/
theorem stripFields_cons_of_ne_null (k : String) (v : Json) (rest : List (String × Json))
    (hv : v ≠ .null) : stripFields ((k, v) :: rest) = (k, stripNulls v) :: stripFields rest := by
  cases v <;> simp [stripFields] at hv ⊢

/-- Only objects and arrays are related by `AddsNullField`. -/
theorem AddsNullField.ne_null {v w : Json} (h : AddsNullField v w) : v ≠ .null ∧ w ≠ .null := by
  cases h <;> simp

/-- Adding a null-valued field to an object of a document does not change what
the Null-Stripper makes of the document. -/
theorem stripNulls_of_addsNullField {v w : Json} (h : AddsNullField v w) :
    stripNulls w = stripNulls v := by
  induction h with
  | here f front back _ =>
    simp [stripNulls, stripFields_append, stripFields]
  | inField k front back hvw ih =>
    simp [stripNulls, stripFields_append, stripFields_cons_of_ne_null _ _ _ hvw.ne_null.1,
      stripFields_cons_of_ne_null _ _ _ hvw.ne_null.2, ih]
  | inElem front back hvw ih =>
    simp [stripNulls, stripElems_append, stripElems, ih]

/-- C9: with the Null-Stripper of the specification, if the serialization of
the desired object `O'` is that of `O` with one extra field `f : null` in one of
its objects (which has no field `f` otherwise), `O'` being of the same type as
`O` so that the merge-metadata lookup gives the same for both, then `Calculate`
returns for `O'` exactly what it returns for `O` (same `Patch`, same `Modified`,
same error if any), the stripped bytes handed to the merge being the same. -/
theorem calculate_null_insensitive {Typed Unstr Ann Meta Err : Type}
    (env : Collaborators Typed Unstr Ann Meta Err) (codec : JsonCodec Err)
    (p : PatchMaker Ann) (c O O' : RuntimeObject Typed Unstr)
    (b b' : ByteSlice) (j j' : Json)
    (hstrip : env.DeleteNullInJson = DeleteNullInJson codec)
    (hO : env.Marshal O = .ok b) (hO' : env.Marshal O' = .ok b')
    (hj : codec.decode b = .ok j) (hj' : codec.decode b' = .ok j')
    (hadd : AddsNullField j j')
    (hmeta : ∀ t, c = .typed t →
      env.NewPatchMetaFromStruct O' = env.NewPatchMetaFromStruct O) :
    env.DeleteNullInJson b' = env.DeleteNullInJson b ∧
    env.DeleteNullInJson b = .ok (codec.encode (stripNulls j)) ∧
    Calculate env p c O' = Calculate env p c O := by
  have hb : env.DeleteNullInJson b = .ok (codec.encode (stripNulls j)) := by
    rw [hstrip]
    simp only [DeleteNullInJson, hj]
  have hb' : env.DeleteNullInJson b' = .ok (codec.encode (stripNulls j)) := by
    rw [hstrip]
    simp only [DeleteNullInJson, hj', stripNulls_of_addsNullField hadd]
  refine ⟨hb'.trans hb.symm, hb, ?_⟩
  cases c with
  | unstructured u => simp only [Calculate, hO, hO', hb, hb']
  | typed t => simp only [Calculate, hO, hO', hb, hb', hmeta t rfl]

/-- Witness for C9: the desired object 3 serializes to `"a":1,"f":null`, the
desired object 1 to `"a":1`; against the current object 2 both give the patch
`"a":1`. -/
theorem calculate_null_insensitive_witness :
    Calculate demoEnv ⟨0⟩ (.typed 2) (.typed 1)
      = (some ⟨bytesA1, bytesA2, bytesA1, bytesA1⟩, none) ∧
    (demoEnv.DeleteNullInJson bytesA1FNull = demoEnv.DeleteNullInJson bytesA1 ∧
     demoEnv.DeleteNullInJson bytesA1
       = .ok (demoCodec.encode (stripNulls (.obj [("a", .num 1)]))) ∧
     Calculate demoEnv ⟨0⟩ (.typed 2) (.typed 3) = Calculate demoEnv ⟨0⟩ (.typed 2) (.typed 1)) :=
  ⟨rfl, calculate_null_insensitive demoEnv demoCodec ⟨0⟩ (.typed 2) (.typed 1) (.typed 3)
    bytesA1 bytesA1FNull (.obj [("a", .num 1)]) (.obj [("a", .num 1), ("f", .null)])
    rfl rfl rfl rfl rfl (AddsNullField.here "f" [("a", .num 1)] [] (by decide))
    (fun _ _ => rfl)⟩

/-- C10: `Calculate` gives the same result and error for any two receivers,
whatever their `annotator` fields hold; the `Original` of a result is what the
package-level `DefaultAnnotator` returned for the current object. -/
theorem calculate_receiver_independent {Typed Unstr Ann Meta Err : Type}
    (env : Collaborators Typed Unstr Ann Meta Err) (p q : PatchMaker Ann)
    (c m : RuntimeObject Typed Unstr) :
    Calculate env p c m = Calculate env q c m ∧
    ∀ r, (Calculate env p c m).1 = some r →
      env.GetOriginalConfiguration env.DefaultAnnotator c = .ok r.Original := by
  refine ⟨rfl, ?_⟩
  intro r hr
  rcases calculate_outcome env p c m with ⟨r2, hr2, -, -, ho, -⟩ | ⟨s, e, -, hres⟩
  · rw [hr2] at hr
    cases hr
    exact ho
  · rw [hres] at hr
    cases hr

end ObjectMatcher
